import Mathlib

/-!
# PolyVoice transcription service — verification of the request handler

Shallow embedding of `src/backend/main.py` (`transcribe_audio_v1`) and proofs
of the specification's claims about it.

Modelling conventions:
* Python strings are embedded as `List Char` (`Str`); `str.split('.')` is
  `splitOnDot`, `[-1]` on the (always non-empty) split result is `lastD`,
  `str.lower()` is `List.map Char.toLower`.
* The uploaded file is a `filename : Option Str` (Python `UploadFile.filename`
  may be `None`) together with its byte payload `contents : List Nat`.
  A request in which no file field is supplied is modelled as an upload whose
  declared filename is `none`: the handler detects the absence of an audio
  file through its `if not audio.filename` check.
* Python float arithmetic is embedded as exact rational arithmetic over `ℚ`
  (`0.5 = 1/2`, `0.1 = 1/10`, `0.003 = 3/1000`); Python's `round(x, n)`
  (round-half-to-even) is `pyRound`/`pyRoundTo`.
* The external OpenAI call is a parameter `ext : Except Str Str` (error
  message or transcript text); the measured wall-clock delta is a parameter
  `elapsedMs : Nat`.
* Side effects are recorded in a `RunTrace`: whether the payload was read,
  whether a staged temporary file was created, the suffix it was created
  with, whether it still exists when the handler returns (the `finally`
  block), and whether/with which model the external service was invoked.
-/

/-- Python strings, embedded as lists of characters. -/
abbrev Str := List Char

/-- `str.split('.')`: splits on `'.'`, keeping empty segments; on the empty
string it returns `[""]`, exactly as Python's `split` with an explicit
separator does. -/
def splitOnDot : Str → List Str
  | [] => [[]]
  | c :: cs =>
    if c = '.' then [] :: splitOnDot cs
    else
      match splitOnDot cs with
      | [] => [[c]]
      | r :: rs => (c :: r) :: rs

/-- `lst[-1]` on a list of strings, with `[]` returned for the empty list
(which `splitOnDot` never produces). -/
def lastD : List Str → Str
  | [] => []
  | [a] => a
  | _ :: b :: bs => lastD (b :: bs)

/-- The five supported format literals of main.py line 31, in source-literal
order. Python iterates a `set` in an unspecified order; the claims proved
below depend only on membership. -/
def SUPPORTED_FORMATS : List Str :=
  [".m4a".toList, ".mp3".toList, ".wav".toList, ".ogg".toList, ".webm".toList]

/-- The supported extensions without their leading dot, lowercased: the
names a filename may end in, matched case-insensitively. -/
def SUPPORTED_EXT_NAMES : List Str :=
  ["m4a".toList, "mp3".toList, "wav".toList, "ogg".toList, "webm".toList]

/-- `file_extension = '.' + audio.filename.split('.')[-1].lower()`
(main.py line 129). -/
def fileExtension (name : Str) : Str :=
  '.' :: (lastD (splitOnDot name)).map Char.toLower

/-- The fixed model identifier `"gpt-4o-mini-transcribe"` (main.py line 168). -/
def gptModel : Str := "gpt-4o-mini-transcribe".toList

/-- Detail of the 400 raised when `not audio.filename` (main.py line 120). -/
def noAudioDetail : Str := "No audio file provided".toList

/-- Detail of the 400 raised on an unsupported extension (main.py line 133):
a fixed prefix followed by the supported formats joined with a comma and a
space. -/
def unsupportedDetail : Str :=
  "Unsupported audio format. Supported formats: ".toList
    ++ List.intercalate ", ".toList SUPPORTED_FORMATS

/-- Detail of the 400 raised on an empty payload (main.py line 146). -/
def emptyDetail : Str := "Empty audio file".toList

/-- Detail of the 500 raised when the external call fails (main.py
line 204): the fixed prefix followed by the failure message. -/
def transcriptionFailedDetail (e : Str) : Str :=
  "Transcription failed: ".toList ++ e

/-- Python's `round` on an exact rational: round half to even. -/
def pyRound (q : ℚ) : ℤ :=
  if q - ⌊q⌋ < 1 / 2 then ⌊q⌋
  else if q - ⌊q⌋ > 1 / 2 then ⌊q⌋ + 1
  else if ⌊q⌋ % 2 = 0 then ⌊q⌋ else ⌊q⌋ + 1

/-- Python's `round(q, ndigits)` on an exact rational. -/
def pyRoundTo (q : ℚ) (ndigits : ℕ) : ℚ :=
  (pyRound (q * 10 ^ ndigits) : ℚ) / 10 ^ ndigits

/-- The multipart upload: declared filename (possibly absent) and payload. -/
structure UploadFile where
  filename : Option Str
  contents : List Nat
deriving DecidableEq

/-- The `TranscriptionResponse` pydantic model (main.py lines 78-83). -/
structure TranscriptionResponse where
  text : Str
  model_used : Str
  processing_time_ms : Nat
  estimated_cost : ℚ
  estimated_minutes : ℚ
deriving DecidableEq

/-- A handler outcome: a 200 response body or an `HTTPException`
(status code, detail string). -/
inductive HandlerResult where
  | ok (resp : TranscriptionResponse)
  | error (statusCode : Nat) (detail : Str)
deriving DecidableEq

/-- The observable outcome of one request: the HTTP result plus the side
effects the handler performed. -/
structure RunTrace where
  result : HandlerResult
  /-- whether `await audio.read()` was executed -/
  bytesRead : Bool
  /-- whether a staged temporary file was created (main.py line 150) -/
  stagedWritten : Bool
  /-- the suffix the temporary file was created with, if it was -/
  stagedSuffix : Option Str
  /-- whether the staged file still exists when the handler returns -/
  stagedRemaining : Bool
  /-- whether the external transcription service was invoked -/
  externalCalled : Bool
  /-- the model identifier passed to the external call, if it was made -/
  externalModel : Option Str
deriving DecidableEq

/-- The `finally` block (main.py lines 191-194):
`if os.path.exists(temp_file_path): os.unlink(temp_file_path)`. -/
def cleanupStagedFile (fileExists : Bool) : Bool :=
  if fileExists then false else fileExists

/-- `file_size_mb = len(audio_data) / (1024 * 1024)`;
`estimated_minutes = max(file_size_mb / 0.5, 0.1)` (main.py lines 157-158). -/
def estimatedMinutes (nbytes : ℕ) : ℚ :=
  max ((nbytes : ℚ) / (1024 * 1024) / (1 / 2)) (1 / 10)

/-- `transcribe_audio_v1` (main.py lines 106-205), with the external call's
outcome and the measured elapsed milliseconds as parameters. -/
def transcribe_audio_v1 (audio : UploadFile) (ext : Except Str Str)
    (elapsedMs : ℕ) : RunTrace :=
  -- if not audio.filename: raise HTTPException(400, "No audio file provided")
  if audio.filename = none ∨ audio.filename = some [] then
    { result := .error 400 noAudioDetail, bytesRead := false,
      stagedWritten := false, stagedSuffix := none, stagedRemaining := false,
      externalCalled := false, externalModel := none }
  else
    let name := audio.filename.getD []
    -- file_extension = '.' + audio.filename.split('.')[-1].lower()
    let fe := fileExtension name
    if fe ∉ SUPPORTED_FORMATS then
      { result := .error 400 unsupportedDetail, bytesRead := false,
        stagedWritten := false, stagedSuffix := none, stagedRemaining := false,
        externalCalled := false, externalModel := none }
    else
      -- if not file_extension: file_extension = ".m4a"   (dead for non-empty
      -- filenames: fe always starts with '.')
      let file_extension := if fe = [] then ".m4a".toList else fe
      -- audio_data = await audio.read()
      let audio_data := audio.contents
      if audio_data = [] then
        { result := .error 400 emptyDetail, bytesRead := true,
          stagedWritten := false, stagedSuffix := none,
          stagedRemaining := false, externalCalled := false,
          externalModel := none }
      else
        -- tempfile.NamedTemporaryFile(delete=False, suffix=file_extension)
        let estMinutes := estimatedMinutes audio_data.length
        match ext with
        | .error e =>
          -- exception propagates through the finally block, then the
          -- `except Exception` arm converts it to a 500
          { result := .error 500 (transcriptionFailedDetail e),
            bytesRead := true, stagedWritten := true,
            stagedSuffix := some file_extension,
            stagedRemaining := cleanupStagedFile true,
            externalCalled := true, externalModel := some gptModel }
        | .ok text =>
          let estCost := estMinutes * (3 / 1000)
          { result := .ok
              { text := text, model_used := gptModel,
                processing_time_ms := elapsedMs,
                estimated_cost := pyRoundTo estCost 6,
                estimated_minutes := pyRoundTo estMinutes 2 },
            bytesRead := true, stagedWritten := true,
            stagedSuffix := some file_extension,
            stagedRemaining := cleanupStagedFile true,
            externalCalled := true, externalModel := some gptModel }

-- Sanity checks that the embedding evaluates as the Python does.
example : splitOnDot "a.b.c".toList = ["a".toList, "b".toList, "c".toList] := by
  decide
example : splitOnDot "abc".toList = ["abc".toList] := by decide
example : fileExtension "song.M4A".toList = ".m4a".toList := by decide
example : fileExtension "audio".toList = ".audio".toList := by decide
example : pyRoundTo (3 / 500) 6 = 3 / 500 := by norm_num [pyRoundTo, pyRound]
example : estimatedMinutes (1024 * 1024) = 2 := by norm_num [estimatedMinutes]
example : estimatedMinutes (10 * 1024) = 1 / 10 := by
  norm_num [estimatedMinutes]

/-! ## Helper lemmas about the extension-parsing embedding -/

theorem splitOnDot_ne_nil : ∀ l : Str, splitOnDot l ≠ []
  | [] => by simp [splitOnDot]
  | c :: cs => by
    simp only [splitOnDot]
    split
    · simp
    · split <;> simp

theorem lastD_cons_of_ne_nil (a : Str) (l : List Str) (h : l ≠ []) :
    lastD (a :: l) = lastD l := by
  cases l with
  | nil => exact absurd rfl h
  | cons b bs => rfl

theorem splitOnDot_of_not_mem : ∀ l : Str, '.' ∉ l → splitOnDot l = [l]
  | [], _ => rfl
  | c :: cs, h => by
    have hc : ¬(c = '.') := fun hcc => h (hcc ▸ List.mem_cons_self c cs)
    have hcs : '.' ∉ cs := fun hm => h (List.mem_cons_of_mem c hm)
    simp only [splitOnDot, if_neg hc, splitOnDot_of_not_mem cs hcs]

theorem two_le_length_splitOnDot : ∀ l : Str, '.' ∈ l → 2 ≤ (splitOnDot l).length
  | [], h => absurd h (List.not_mem_nil _)
  | c :: cs, h => by
    by_cases hc : c = '.'
    · subst hc
      simp only [splitOnDot, if_pos rfl, if_true, List.length_cons]
      have := List.length_pos.mpr (splitOnDot_ne_nil cs)
      omega
    · have hcs : '.' ∈ cs := by
        rcases List.mem_cons.mp h with h1 | h1
        · exact absurd h1.symm hc
        · exact h1
      have ih := two_le_length_splitOnDot cs hcs
      simp only [splitOnDot, if_neg hc]
      rcases hsp : splitOnDot cs with _ | ⟨r, rs⟩
      · exact absurd hsp (splitOnDot_ne_nil cs)
      · rw [hsp] at ih
        simp only [List.length_cons] at ih ⊢
        omega

theorem lastD_splitOnDot_append : ∀ f e : Str,
    lastD (splitOnDot (f ++ '.' :: e)) = lastD (splitOnDot ('.' :: e))
  | [], _ => rfl
  | c :: f, e => by
    by_cases hc : c = '.'
    · subst hc
      simp only [List.cons_append, splitOnDot, if_pos rfl, if_true]
      rw [lastD_cons_of_ne_nil _ _ (splitOnDot_ne_nil _)]
      rw [lastD_cons_of_ne_nil _ _ (splitOnDot_ne_nil _)]
      show lastD (splitOnDot (f ++ '.' :: e)) = lastD (splitOnDot e)
      rw [lastD_splitOnDot_append f e]
      simp only [splitOnDot, if_pos rfl, if_true]
      rw [lastD_cons_of_ne_nil _ _ (splitOnDot_ne_nil e)]
    · have hmem : '.' ∈ f ++ '.' :: e :=
        List.mem_append_right f (List.mem_cons_self _ _)
      have h2 := two_le_length_splitOnDot _ hmem
      simp only [List.cons_append, splitOnDot, if_neg hc]
      rcases hsp : splitOnDot (f ++ '.' :: e) with _ | ⟨r, rs⟩
      · exact absurd hsp (splitOnDot_ne_nil _)
      · have ih := lastD_splitOnDot_append f e
        rw [hsp] at ih h2
        have hrs : rs ≠ [] := by
          intro hnil
          subst hnil
          simp at h2
        rw [lastD_cons_of_ne_nil _ _ hrs]
        rw [lastD_cons_of_ne_nil _ _ hrs] at ih
        exact ih

theorem fileExtension_append (f e : Str) (he : '.' ∉ e) :
    fileExtension (f ++ '.' :: e) = '.' :: e.map Char.toLower := by
  unfold fileExtension
  rw [lastD_splitOnDot_append]
  simp only [splitOnDot, if_pos rfl, if_true]
  rw [lastD_cons_of_ne_nil _ _ (splitOnDot_ne_nil e), splitOnDot_of_not_mem e he]
  rfl

theorem fileExtension_of_no_dot (name : Str) (h : '.' ∉ name) :
    fileExtension name = '.' :: name.map Char.toLower := by
  unfold fileExtension
  rw [splitOnDot_of_not_mem name h]
  rfl

theorem fileExtension_ne_nil (name : Str) : fileExtension name ≠ [] := by
  unfold fileExtension
  exact List.cons_ne_nil _ _

theorem dot_cons_mem_SUPPORTED (x : Str) :
    ('.' :: x) ∈ SUPPORTED_FORMATS ↔ x ∈ SUPPORTED_EXT_NAMES := by
  show ('.' :: x) ∈
      [('.' :: "m4a".toList), ('.' :: "mp3".toList), ('.' :: "wav".toList),
        ('.' :: "ogg".toList), ('.' :: "webm".toList)] ↔ _
  simp [SUPPORTED_EXT_NAMES]

theorem no_dot_of_mem_SUPPORTED_EXT_NAMES (e : Str)
    (he : e.map Char.toLower ∈ SUPPORTED_EXT_NAMES) : '.' ∉ e := by
  intro hd
  have hmem : '.' ∈ e.map Char.toLower :=
    List.mem_map.mpr ⟨'.', hd, by decide⟩
  simp only [SUPPORTED_EXT_NAMES, List.mem_cons, List.not_mem_nil,
    or_false] at he
  rcases he with h | h | h | h | h <;> rw [h] at hmem <;>
    exact absurd hmem (by decide)

theorem replicate_pos_ne_nil (n : ℕ) (a : ℕ) (h : 0 < n) :
    List.replicate n a ≠ [] := by
  apply List.length_pos.mp
  rw [List.length_replicate]
  exact h

/-! ## Handler path lemmas -/

theorem run_success (name : Str) (contents : List Nat) (text : Str) (t : ℕ)
    (hne : name ≠ []) (hsupp : fileExtension name ∈ SUPPORTED_FORMATS)
    (hcont : contents ≠ []) :
    transcribe_audio_v1 ⟨some name, contents⟩ (.ok text) t =
      { result := .ok
          { text := text, model_used := gptModel, processing_time_ms := t,
            estimated_cost :=
              pyRoundTo (estimatedMinutes contents.length * (3 / 1000)) 6,
            estimated_minutes := pyRoundTo (estimatedMinutes contents.length) 2 },
        bytesRead := true, stagedWritten := true,
        stagedSuffix := some (fileExtension name), stagedRemaining := false,
        externalCalled := true, externalModel := some gptModel } := by
  simp [transcribe_audio_v1, hne, hsupp, hcont, cleanupStagedFile,
    fileExtension_ne_nil]

theorem run_extError (name : Str) (contents : List Nat) (e : Str) (t : ℕ)
    (hne : name ≠ []) (hsupp : fileExtension name ∈ SUPPORTED_FORMATS)
    (hcont : contents ≠ []) :
    transcribe_audio_v1 ⟨some name, contents⟩ (.error e) t =
      { result := .error 500 (transcriptionFailedDetail e),
        bytesRead := true, stagedWritten := true,
        stagedSuffix := some (fileExtension name), stagedRemaining := false,
        externalCalled := true, externalModel := some gptModel } := by
  simp [transcribe_audio_v1, hne, hsupp, hcont, cleanupStagedFile,
    fileExtension_ne_nil]

/-! ## Claim theorems -/

/-- Claim C1, counterexample: the concrete request with the non-empty,
dot-free filename "audio" does NOT proceed past format validation with an
effective extension of ".m4a" — it is rejected with the 400
unsupported-format error and nothing is staged. -/
theorem noDotFilename_rejected_cex :
    (transcribe_audio_v1 ⟨some "audio".toList, [0]⟩ (.ok "hi".toList) 1).result
        = .error 400 unsupportedDetail ∧
      (transcribe_audio_v1 ⟨some "audio".toList, [0]⟩
          (.ok "hi".toList) 1).stagedSuffix = none := by
  decide

/-- Claim C1, amended: for a non-empty filename containing no dot the
handler computes the effective extension as a dot followed by the whole
lowercased filename (never the ".m4a" default, whose branch is unreachable
for non-empty filenames), and whenever that string is not itself a supported
format the request is rejected with the 400 unsupported-format error before
any staging. -/
theorem noDotFilename_whole_name_is_extension (name : Str)
    (contents : List Nat) (ext : Except Str Str) (t : ℕ)
    (hne : name ≠ []) (hnodot : '.' ∉ name) :
    fileExtension name = '.' :: name.map Char.toLower ∧
      (('.' :: name.map Char.toLower) ∉ SUPPORTED_FORMATS →
        (transcribe_audio_v1 ⟨some name, contents⟩ ext t).result
            = .error 400 unsupportedDetail ∧
          (transcribe_audio_v1 ⟨some name, contents⟩ ext t).stagedWritten
            = false) := by
  have hfe := fileExtension_of_no_dot name hnodot
  refine ⟨hfe, fun hnotmem => ?_⟩
  rw [← hfe] at hnotmem
  constructor <;> simp [transcribe_audio_v1, hne, hnotmem]

/-- Witness for the amended claim C1 at the filename "audio". -/
theorem noDotFilename_whole_name_is_extension_witness :
    "audio".toList ≠ ([] : Str) ∧ '.' ∉ "audio".toList ∧
      (fileExtension "audio".toList
          = '.' :: "audio".toList.map Char.toLower ∧
        (('.' :: "audio".toList.map Char.toLower) ∉ SUPPORTED_FORMATS →
          (transcribe_audio_v1 ⟨some "audio".toList, [37]⟩
              (.ok "ok".toList) 2).result = .error 400 unsupportedDetail ∧
            (transcribe_audio_v1 ⟨some "audio".toList, [37]⟩
              (.ok "ok".toList) 2).stagedWritten = false)) :=
  ⟨by decide, by decide,
    noDotFilename_whole_name_is_extension "audio".toList [37]
      (.ok "ok".toList) 2 (by decide) (by decide)⟩

/-- Claim C2: a POST in which no file field is supplied — modelled as an
upload whose declared filename is absent, which is exactly how the handler
detects the absence of an audio file — yields a 400 whose detail mentions
the absence of an audio file. -/
theorem missing_file_returns_400 (contents : List Nat) (ext : Except Str Str)
    (t : ℕ) :
    (transcribe_audio_v1 ⟨none, contents⟩ ext t).result
        = .error 400 noAudioDetail ∧
      "audio file".toList <:+: noAudioDetail :=
  ⟨rfl, by decide⟩

/-- Claim C10: an upload whose declared filename is the empty string is
treated identically to a missing file: the whole observable trace coincides,
the result is the 400 no-audio-file error, and the payload bytes are never
read. -/
theorem empty_filename_like_missing (contents : List Nat)
    (ext : Except Str Str) (t : ℕ) :
    transcribe_audio_v1 ⟨some [], contents⟩ ext t
        = transcribe_audio_v1 ⟨none, contents⟩ ext t ∧
      (transcribe_audio_v1 ⟨some [], contents⟩ ext t).result
        = .error 400 noAudioDetail ∧
      (transcribe_audio_v1 ⟨some [], contents⟩ ext t).bytesRead = false :=
  ⟨rfl, rfl, rfl⟩

/-- Claim C3: every request that reaches the staging step has its staged
temporary file deleted before the handler returns, on the success path and
on every failure of the external call alike. -/
theorem staged_file_cleanup (audio : UploadFile) (ext : Except Str Str)
    (t : ℕ)
    (_hstaged : (transcribe_audio_v1 audio ext t).stagedWritten = true) :
    (transcribe_audio_v1 audio ext t).stagedRemaining = false := by
  obtain ⟨fn, c⟩ := audio
  simp only [transcribe_audio_v1, cleanupStagedFile]
  split
  · rfl
  · split
    · rfl
    · split
      · rfl
      · split <;> rfl

/-- Witness for claim C3: a staged request whose external call fails. -/
theorem staged_file_cleanup_witness :
    (transcribe_audio_v1 ⟨some "take1.mp3".toList, [9]⟩
        (.error "boom".toList) 3).stagedWritten = true ∧
      (transcribe_audio_v1 ⟨some "take1.mp3".toList, [9]⟩
        (.error "boom".toList) 3).stagedRemaining = false :=
  ⟨by decide,
    staged_file_cleanup ⟨some "take1.mp3".toList, [9]⟩
      (.error "boom".toList) 3 (by decide)⟩

/-- Claim C9: every 400 rejection is raised before the staged temporary file
is created and before the external transcription service is invoked: a
rejected request performs no filesystem write and no outbound call. -/
theorem rejection_has_no_side_effects (audio : UploadFile)
    (ext : Except Str Str) (t : ℕ) (d : Str)
    (h : (transcribe_audio_v1 audio ext t).result = .error 400 d) :
    (transcribe_audio_v1 audio ext t).stagedWritten = false ∧
      (transcribe_audio_v1 audio ext t).externalCalled = false := by
  obtain ⟨fn, c⟩ := audio
  revert h
  simp only [transcribe_audio_v1]
  split
  · exact fun _ => ⟨rfl, rfl⟩
  · split
    · exact fun _ => ⟨rfl, rfl⟩
    · split
      · exact fun _ => ⟨rfl, rfl⟩
      · split
        · exact fun h => absurd h (by simp)
        · exact fun h => absurd h (by simp)

/-- Witness for claim C9: the unsupported-extension rejection performs no
staging and no external call. -/
theorem rejection_has_no_side_effects_witness :
    (transcribe_audio_v1 ⟨some "x.txt".toList, [1]⟩ (.ok "t".toList) 0).result
        = .error 400 unsupportedDetail ∧
      (transcribe_audio_v1 ⟨some "x.txt".toList, [1]⟩
          (.ok "t".toList) 0).stagedWritten = false ∧
      (transcribe_audio_v1 ⟨some "x.txt".toList, [1]⟩
          (.ok "t".toList) 0).externalCalled = false :=
  ⟨by decide,
    rejection_has_no_side_effects ⟨some "x.txt".toList, [1]⟩
      (.ok "t".toList) 0 unsupportedDetail (by decide)⟩

/-- Claim C4: for every non-empty payload of n bytes the success response
reports the size heuristic max of n over bytes-per-megabyte divided by 0.5
and the 0.1 floor (rounded to 2 places for reporting); in particular a 1 MB
payload yields 2.0 and a 10 KB payload yields 0.1. -/
theorem estimated_minutes_from_size (name : Str) (contents : List Nat)
    (text : Str) (t : ℕ) (hne : name ≠ [])
    (hsupp : fileExtension name ∈ SUPPORTED_FORMATS) (hcont : contents ≠ []) :
    (∃ resp,
        (transcribe_audio_v1 ⟨some name, contents⟩ (.ok text) t).result
            = .ok resp ∧
          resp.estimated_minutes =
            pyRoundTo
              (max (((contents.length : ℚ) / (1024 * 1024)) / (1 / 2))
                (1 / 10)) 2) ∧
      (∃ resp,
        (transcribe_audio_v1
            ⟨some "clip.m4a".toList, List.replicate (1024 * 1024) 0⟩
            (.ok text) t).result = .ok resp ∧
          resp.estimated_minutes = 2) ∧
      (∃ resp,
        (transcribe_audio_v1
            ⟨some "clip.m4a".toList, List.replicate (10 * 1024) 0⟩
            (.ok text) t).result = .ok resp ∧
          resp.estimated_minutes = 1 / 10) := by
  refine ⟨?_, ?_, ?_⟩
  · rw [run_success name contents text t hne hsupp hcont]
    exact ⟨_, rfl, rfl⟩
  · rw [run_success _ _ text t (by decide) (by decide)
      (replicate_pos_ne_nil _ _ (by norm_num))]
    refine ⟨_, rfl, ?_⟩
    rw [List.length_replicate]
    norm_num [pyRoundTo, pyRound, estimatedMinutes]
  · rw [run_success _ _ text t (by decide) (by decide)
      (replicate_pos_ne_nil _ _ (by norm_num))]
    refine ⟨_, rfl, ?_⟩
    rw [List.length_replicate]
    norm_num [pyRoundTo, pyRound, estimatedMinutes]

/-- Witness for claim C4 at a three-byte payload. -/
theorem estimated_minutes_from_size_witness :
    "clip2.wav".toList ≠ ([] : Str) ∧
      fileExtension "clip2.wav".toList ∈ SUPPORTED_FORMATS ∧
      ([1, 2, 3] : List Nat) ≠ [] ∧
      (∃ resp,
        (transcribe_audio_v1 ⟨some "clip2.wav".toList, [1, 2, 3]⟩
            (.ok "t".toList) 7).result = .ok resp ∧
          resp.estimated_minutes =
            pyRoundTo
              (max (((([1, 2, 3] : List Nat).length : ℚ) / (1024 * 1024))
                  / (1 / 2)) (1 / 10)) 2) :=
  ⟨by decide, by decide, by decide,
    (estimated_minutes_from_size "clip2.wav".toList [1, 2, 3] "t".toList 7
      (by decide) (by decide) (by decide)).1⟩

/-- Claim C5: the success response's estimated cost is the unrounded minutes
estimate times 0.003, rounded to 6 decimal places, and its estimated minutes
is the estimate rounded to 2 decimal places; a minutes estimate of 2.0 gives
a cost of 0.006. -/
theorem estimated_cost_formula (name : Str) (contents : List Nat)
    (text : Str) (t : ℕ) (hne : name ≠ [])
    (hsupp : fileExtension name ∈ SUPPORTED_FORMATS) (hcont : contents ≠ []) :
    ∃ resp,
      (transcribe_audio_v1 ⟨some name, contents⟩ (.ok text) t).result
          = .ok resp ∧
        resp.estimated_cost
          = pyRoundTo (estimatedMinutes contents.length * (3 / 1000)) 6 ∧
        resp.estimated_minutes = pyRoundTo (estimatedMinutes contents.length) 2 ∧
        (estimatedMinutes contents.length = 2 →
          resp.estimated_cost = 3 / 500) := by
  rw [run_success name contents text t hne hsupp hcont]
  refine ⟨_, rfl, rfl, rfl, fun h2 => ?_⟩
  rw [h2]
  norm_num [pyRoundTo, pyRound]

/-- Witness for claim C5 at a 1 MB payload, whose minutes estimate is
exactly 2. -/
theorem estimated_cost_formula_witness :
    "take.ogg".toList ≠ ([] : Str) ∧
      fileExtension "take.ogg".toList ∈ SUPPORTED_FORMATS ∧
      (List.replicate (1024 * 1024) (0 : Nat)) ≠ [] ∧
      (∃ resp,
        (transcribe_audio_v1
            ⟨some "take.ogg".toList, List.replicate (1024 * 1024) 0⟩
            (.ok "t".toList) 4).result = .ok resp ∧
          resp.estimated_cost
            = pyRoundTo
                (estimatedMinutes (List.replicate (1024 * 1024) (0 : Nat)).length
                  * (3 / 1000)) 6 ∧
          resp.estimated_minutes
            = pyRoundTo
                (estimatedMinutes (List.replicate (1024 * 1024) (0 : Nat)).length)
                2 ∧
          (estimatedMinutes (List.replicate (1024 * 1024) (0 : Nat)).length = 2 →
            resp.estimated_cost = 3 / 500)) :=
  ⟨by decide, by decide, replicate_pos_ne_nil _ _ (by norm_num),
    estimated_cost_formula "take.ogg".toList (List.replicate (1024 * 1024) 0)
      "t".toList 4 (by decide) (by decide)
      (replicate_pos_ne_nil _ _ (by norm_num))⟩

/-- Claim C6: for every extension in the supported set, matched
case-insensitively, a request with a non-empty file named with that
extension passes validation, and when the external call succeeds the
response reports the fixed model identifier and that same identifier is the
one passed to the external call. -/
theorem supported_extension_success (f e : Str) (contents : List Nat)
    (text : Str) (t : ℕ)
    (he : e.map Char.toLower ∈ SUPPORTED_EXT_NAMES) (hcont : contents ≠ []) :
    ∃ resp,
      (transcribe_audio_v1 ⟨some (f ++ '.' :: e), contents⟩
          (.ok text) t).result = .ok resp ∧
        resp.model_used = gptModel ∧
        (transcribe_audio_v1 ⟨some (f ++ '.' :: e), contents⟩
          (.ok text) t).externalModel = some gptModel := by
  have hnodot := no_dot_of_mem_SUPPORTED_EXT_NAMES e he
  have hfe := fileExtension_append f e hnodot
  have hsupp : fileExtension (f ++ '.' :: e) ∈ SUPPORTED_FORMATS := by
    rw [hfe]
    exact (dot_cons_mem_SUPPORTED _).mpr he
  have hne : f ++ '.' :: e ≠ [] := by simp
  rw [run_success _ contents text t hne hsupp hcont]
  exact ⟨_, rfl, rfl, rfl⟩

/-- Witness for claim C6 at the upper-case extension "M4A". -/
theorem supported_extension_success_witness :
    ("M4A".toList.map Char.toLower ∈ SUPPORTED_EXT_NAMES) ∧
      ([5] : List Nat) ≠ [] ∧
      (∃ resp,
        (transcribe_audio_v1
            ⟨some ("song".toList ++ '.' :: "M4A".toList), [5]⟩
            (.ok "hello".toList) 6).result = .ok resp ∧
          resp.model_used = gptModel ∧
          (transcribe_audio_v1
            ⟨some ("song".toList ++ '.' :: "M4A".toList), [5]⟩
            (.ok "hello".toList) 6).externalModel = some gptModel) :=
  ⟨by decide, by decide,
    supported_extension_success "song".toList "M4A".toList [5]
      "hello".toList 6 (by decide) (by decide)⟩

set_option maxRecDepth 4096 in
/-- Claim C7: a request whose computed filename extension is outside the
supported set is rejected with a 400 whose detail lists every supported
format. -/
theorem unsupported_extension_lists_formats (name : Str)
    (contents : List Nat) (ext : Except Str Str) (t : ℕ) (hne : name ≠ [])
    (hunsupp : fileExtension name ∉ SUPPORTED_FORMATS) :
    (transcribe_audio_v1 ⟨some name, contents⟩ ext t).result
        = .error 400 unsupportedDetail ∧
      ∀ fmt ∈ SUPPORTED_FORMATS, fmt <:+: unsupportedDetail := by
  constructor
  · simp [transcribe_audio_v1, hne, hunsupp]
  · decide

set_option maxRecDepth 4096 in
/-- Witness for claim C7 at the extension ".txt". -/
theorem unsupported_extension_lists_formats_witness :
    "notes.txt".toList ≠ ([] : Str) ∧
      fileExtension "notes.txt".toList ∉ SUPPORTED_FORMATS ∧
      ((transcribe_audio_v1 ⟨some "notes.txt".toList, [1]⟩
          (.ok "t".toList) 0).result = .error 400 unsupportedDetail ∧
        ∀ fmt ∈ SUPPORTED_FORMATS, fmt <:+: unsupportedDetail) :=
  ⟨by decide, by decide,
    unsupported_extension_lists_formats "notes.txt".toList [1]
      (.ok "t".toList) 0 (by decide) (by decide)⟩

/-- Claim C8: a request with a valid filename and supported extension but an
empty byte payload is rejected with the 400 empty-file error, without
invoking the external transcription service and without staging a file. -/
theorem empty_payload_rejected (name : Str) (ext : Except Str Str) (t : ℕ)
    (hne : name ≠ []) (hsupp : fileExtension name ∈ SUPPORTED_FORMATS) :
    (transcribe_audio_v1 ⟨some name, []⟩ ext t).result
        = .error 400 emptyDetail ∧
      (transcribe_audio_v1 ⟨some name, []⟩ ext t).externalCalled = false ∧
      (transcribe_audio_v1 ⟨some name, []⟩ ext t).stagedWritten = false := by
  refine ⟨?_, ?_, ?_⟩ <;> simp [transcribe_audio_v1, hne, hsupp]

/-- Witness for claim C8 at an empty ".webm" upload. -/
theorem empty_payload_rejected_witness :
    "voice.webm".toList ≠ ([] : Str) ∧
      fileExtension "voice.webm".toList ∈ SUPPORTED_FORMATS ∧
      ((transcribe_audio_v1 ⟨some "voice.webm".toList, []⟩
          (.ok "t".toList) 0).result = .error 400 emptyDetail ∧
        (transcribe_audio_v1 ⟨some "voice.webm".toList, []⟩
          (.ok "t".toList) 0).externalCalled = false ∧
        (transcribe_audio_v1 ⟨some "voice.webm".toList, []⟩
          (.ok "t".toList) 0).stagedWritten = false) :=
  ⟨by decide, by decide,
    empty_payload_rejected "voice.webm".toList (.ok "t".toList) 0
      (by decide) (by decide)⟩
